import Mathlib

/-!
Shallow embedding of the gnuplot session controller (`src/gnuplot.cpp`)
and proofs about its specification claims.

Modelling conventions, fixed once for the whole file:
* `double` values are modelled as `ℚ`; the only operations the embedded code
  performs on them are comparisons and increments by 1, on which `ℚ` agrees
  exactly with IEEE doubles for the dyadic inputs appearing in the claims.
* A C pointer argument that may be `NULL` is modelled as an `Option`.
* The write-only pipe, the filesystem and the environment are externalised:
  an operation that sends a command returns the command text, an operation
  that stages a file returns the file name and its lines, and outcomes of
  external calls (`pclose`, `mkstemp`, short `write`) are boolean inputs.
* `GP_MAX_TMP_FILES` is defined in `gnuplot.h`, which is not part of the
  sources; every definition that consults it takes the bound `maxTmp` as an
  explicit parameter instead of fixing a value.
-/

/-- The session state `gnuplot_ctrl` (declared in `gnuplot.h`, used throughout
`gnuplot.cpp`): current plotting style `pstyle`, number of plots issued since
the last reset `nplots`, and the staged temporary files `to_delete` (whose
length plays the role of the counter `ntmp`). -/
structure gnuplot_ctrl where
  pstyle : String
  nplots : ℕ
  to_delete : List String
deriving DecidableEq, Repr

/-- The session state right after the `GnuPlot` constructor: `gnuplot_init`
sets `nplots = 0` and `ntmp = 0`, and the constructor immediately calls
`gnuplot_setstyle("points")`. -/
def initState : gnuplot_ctrl := { pstyle := "points", nplots := 0, to_delete := [] }

/-- Models the C `"%g"` rendering of a double as text. The exact decimal
rendering is not load-bearing for any claim (the claims depend on line counts
and on title text, never on numeral shapes): integers print as their numeral,
other rationals as `num/den`. -/
def fmtG (q : ℚ) : String :=
  if q.den = 1 then toString q.num else toString q.num ++ "/" ++ toString q.den

/-- The overlay-verb choice that every plot builder in `gnuplot.cpp` makes:
`if (nplots > 0) "replot" else "plot"`. -/
def plotVerb (g : gnuplot_ctrl) : String :=
  if g.nplots > 0 then "replot" else "plot"

/-- `gnuplot_setstyle` (gnuplot.cpp:281-299): the chain of `strcmp` calls; if
the requested style differs from all ten accepted styles, fall back to
`"points"` with a warning, otherwise store the requested style. -/
def gnuplot_setstyle (g : gnuplot_ctrl) (plot_style : String) : gnuplot_ctrl :=
  if plot_style ≠ "lines" ∧ plot_style ≠ "points" ∧ plot_style ≠ "linespoints" ∧
     plot_style ≠ "impulses" ∧ plot_style ≠ "dots" ∧ plot_style ≠ "steps" ∧
     plot_style ≠ "histogram" ∧ plot_style ≠ "errorbars" ∧ plot_style ≠ "boxes" ∧
     plot_style ≠ "boxerrorbars"
  then { g with pstyle := "points" }
  else { g with pstyle := plot_style }

/-- The fixed style enumeration, as listed by the spec and matched by the
`strcmp` chain in `gnuplot_setstyle`. -/
def validStyles : List String :=
  ["lines", "points", "linespoints", "impulses", "dots", "steps",
   "histogram", "errorbars", "boxes", "boxerrorbars"]

/-- `gnuplot_resetplot` (gnuplot.cpp:368-378): removes every staged file,
zeroes `ntmp` and `nplots`, keeps the style. First component is the new
state, second the list of files handed to `remove`. -/
def gnuplot_resetplot (g : gnuplot_ctrl) : gnuplot_ctrl × List String :=
  ({ pstyle := g.pstyle, nplots := 0, to_delete := [] }, g.to_delete)

/-- Result of `gnuplot_close` (gnuplot.cpp:202-216). `warned` records the
message printed when `pclose` fails; `removed` is the list of staged files
handed to `remove`; `state` is `none` once the handle has been freed and
`some g` if the function returned early with the handle intact. -/
structure CloseResult where
  warned : Bool
  removed : List String
  state : Option gnuplot_ctrl
deriving DecidableEq, Repr

/-- `gnuplot_close` (gnuplot.cpp:202-216). The C code returns immediately
after the warning when `pclose` reports failure, before the file-removal
loop and before `free(handle)`; only on `pclose` success does it remove the
staged files and free the handle. `pcloseOk` is the outcome of `pclose`. -/
def gnuplot_close (g : gnuplot_ctrl) (pcloseOk : Bool) : CloseResult :=
  if pcloseOk then { warned := false, removed := g.to_delete, state := none }
  else { warned := true, removed := [], state := some g }

/-- Result of a plot builder call: the new session state, the staged file
(name and its lines) if one was created, and the command sent to the engine
if one was sent. -/
structure PlotResult where
  state : gnuplot_ctrl
  staged : Option (String × List String)
  sent : Option String
deriving DecidableEq, Repr

/-- `gnuplot_plot_x` (gnuplot.cpp:410-463). Guards in source order: null
handle or data and `n < 1` refuse silently; then the capacity check
`ntmp == GP_MAX_TMP_FILES - 1` refuses before `mkstemp`; a failed `mkstemp`
(`tmp = none`) refuses; otherwise the file name is registered, one `%g` line
is written per sample, the verb is chosen from `nplots`, the command is sent,
and `nplots` is incremented. `tmp` is the name `mkstemp` produced. -/
def gnuplot_plot_x (maxTmp : ℕ) (g : gnuplot_ctrl) (d : Option (List ℚ))
    (title : Option String) (tmp : Option String) : PlotResult :=
  match d with
  | none => ⟨g, none, none⟩
  | some ds =>
    if ds.length < 1 then ⟨g, none, none⟩
    else if g.to_delete.length = maxTmp - 1 then ⟨g, none, none⟩
    else
      match tmp with
      | none => ⟨g, none, none⟩
      | some name =>
        let line :=
          match title with
          | none => plotVerb g ++ " \"" ++ name ++ "\" with " ++ g.pstyle
          | some t =>
            plotVerb g ++ " \"" ++ name ++ "\" title \"" ++ t ++ "\" with " ++ g.pstyle
        ⟨{ pstyle := g.pstyle, nplots := g.nplots + 1, to_delete := g.to_delete ++ [name] },
         some (name, ds.map fmtG), some line⟩

/-- `gnuplot_plot_xy` (gnuplot.cpp:497-556). Same shape as `gnuplot_plot_x`
with paired data, except that a short `write` (modelled by `writeOk = false`)
abandons the call after the file has been registered: no command is sent and
`nplots` is not incremented, but the file name stays in `to_delete`. The
file lines pair `x[i]` and `y[i]` for `i < n`; the C code assumes both
arrays hold at least `n` values, which `getD` reflects with a default. -/
def gnuplot_plot_xy (maxTmp : ℕ) (g : gnuplot_ctrl) (x y : Option (List ℚ)) (n : ℕ)
    (title : Option String) (tmp : Option String) (writeOk : Bool) : PlotResult :=
  match x, y with
  | some xs, some ys =>
    if n < 1 then ⟨g, none, none⟩
    else if g.to_delete.length = maxTmp - 1 then ⟨g, none, none⟩
    else
      match tmp with
      | none => ⟨g, none, none⟩
      | some name =>
        let g1 : gnuplot_ctrl := { g with to_delete := g.to_delete ++ [name] }
        if writeOk = false then ⟨g1, some (name, []), none⟩
        else
          let contents := (List.range n).map fun i => fmtG (xs.getD i 0) ++ " " ++ fmtG (ys.getD i 0)
          let line :=
            match title with
            | none => plotVerb g ++ " \"" ++ name ++ "\" with " ++ g.pstyle
            | some t =>
              plotVerb g ++ " \"" ++ name ++ "\" title \"" ++ t ++ "\" with " ++ g.pstyle
          ⟨{ g1 with nplots := g1.nplots + 1 }, some (name, contents), some line⟩
  | _, _ => ⟨g, none, none⟩

/-- `gnuplot_plot_slope` (gnuplot.cpp:637-657). The function computes a local
default title `stitle` (`"no title"` when the argument is null) but then
formats the raw `title` argument into the command; a null pointer printed
through `%s` is rendered the way glibc renders it, `"(null)"` (strictly
undefined behaviour in C). The command is always sent and `nplots` always
incremented. First component is the new state, second the command text. -/
def gnuplot_plot_slope (g : gnuplot_ctrl) (a b : ℚ) (title : Option String) :
    gnuplot_ctrl × String :=
  let stitle := match title with
    | none => "no title"
    | some t => t
  let rawTitleArg := match title with
    | none => "(null)"
    | some t => t
  let _ := stitle
  ({ g with nplots := g.nplots + 1 },
   plotVerb g ++ " " ++ fmtG a ++ " * x + " ++ fmtG b ++ " title \"" ++ rawTitleArg
     ++ "\" with " ++ g.pstyle)

/-- `gnuplot_plot_equation` (gnuplot.cpp:685-706): embeds the equation text
in the command with the default title `"no title"` when none is supplied
(here the computed `title_str` really is the one formatted). -/
def gnuplot_plot_equation (g : gnuplot_ctrl) (equation : String) (title : Option String) :
    gnuplot_ctrl × String :=
  let title_str := match title with
    | none => "no title"
    | some t => t
  ({ g with nplots := g.nplots + 1 },
   plotVerb g ++ " " ++ equation ++ " title \"" ++ title_str ++ "\" with " ++ g.pstyle)

/-- One pass of the inner bin-scan loop of `gnuplot_plot_histogram`
(gnuplot.cpp:739-753) for a single sample `v`: for `i` in `0 .. nbins-2`,
under the overflow (clamping) policy a sample at or below the first edge
increments bin 0 and a sample at or above the last edge increments the last
bin on EVERY iteration, otherwise the containing half-open interval bin is
incremented; under the strict policy only the containing interval counts.
The C code keeps the counters in an array of doubles and increments them by
1, so they are always exact integers; they are modelled as `ℕ` and cast to
`ℚ` at the hand-off to the xy builder. -/
def binOne (ordinate : List ℚ) (nbins : ℕ) (overflow : Bool) (v : ℚ) (bin : List ℕ) :
    List ℕ :=
  (List.range (nbins - 1)).foldl
    (fun b i =>
      if overflow then
        if v ≤ ordinate.getD 0 0 then b.set 0 (b.getD 0 0 + 1)
        else if ordinate.getD (nbins - 1) 0 ≤ v then
          b.set (nbins - 1) (b.getD (nbins - 1) 0 + 1)
        else if ordinate.getD i 0 ≤ v ∧ v < ordinate.getD (i + 1) 0 then
          b.set i (b.getD i 0 + 1)
        else b
      else
        if ordinate.getD i 0 ≤ v ∧ v < ordinate.getD (i + 1) 0 then
          b.set i (b.getD i 0 + 1)
        else b)
    bin

/-- The sample loop of `gnuplot_plot_histogram` (gnuplot.cpp:737-755):
`while (j < nbins && rawdata[j])`, so the loop index over the samples is
bounded by the number of BINS, and the first sample equal to 0 acts as a
sentinel that stops the loop. The fold carries a `stopped` flag; running
past the end of the sample list (undefined behaviour in C) also stops. -/
def histBins (ordinate : List ℚ) (nbins : ℕ) (overflow : Bool) (rawdata : List ℚ) :
    List ℕ :=
  ((List.range nbins).foldl
    (fun (st : List ℕ × Bool) j =>
      if st.2 then st
      else
        match rawdata[j]? with
        | none => (st.1, true)
        | some v =>
          if v = 0 then (st.1, true)
          else (binOne ordinate nbins overflow v st.1, false))
    (List.replicate nbins 0, false)).1

/-- `gnuplot_plot_histogram` (gnuplot.cpp:724-762): zero bins, return if the
raw-data pointer is null, fill the bins, then force the style to `"boxes"`
via `gnuplot_setstyle` and hand the edges and counts to `gnuplot_plot_xy`
with `n = nbins`. -/
def gnuplot_plot_histogram (maxTmp : ℕ) (g : gnuplot_ctrl) (ordinate : List ℚ)
    (rawdata : Option (List ℚ)) (nbins : ℕ) (overflow : Bool) (title : Option String)
    (tmp : Option String) (writeOk : Bool) : PlotResult :=
  match rawdata with
  | none => ⟨g, none, none⟩
  | some rd =>
    let bin := histBins ordinate nbins overflow rd
    let g1 := gnuplot_setstyle g "boxes"
    gnuplot_plot_xy maxTmp g1 (some ordinate) (some (bin.map fun c => (c : ℚ))) nbins
      title tmp writeOk

/-- `access(p, X_OK) == 0` modelled against an explicit list of the paths
that are executable in the ambient filesystem. -/
def access_XOK (fs : List String) (p : String) : Bool := fs.contains p

/-- The PATH-scanning loop of `gnuplot_get_program_path`
(gnuplot.cpp:101-115): take the next colon-free segment (an empty segment
stands for `"."`), test `segment/pname` for executability, stop at the first
hit, otherwise continue after the colon; the buffer holds the full candidate
on success and is empty when the scan falls off the end. The first `ℕ`
argument is fuel bounding the number of segments; the wrapper supplies
`cs.length + 1`, which the loop can never exhaust because every iteration
consumes at least one character of the remaining PATH text. -/
def pathScanF (fs : List String) (pname : String) : ℕ → List Char → Option String
  | 0, _ => none
  | _, [] => none
  | fuel + 1, cs =>
    let seg := cs.takeWhile fun c => c != ':'
    let dir := if seg.isEmpty then "." else String.mk seg
    let cand := dir ++ "/" ++ pname
    if access_XOK fs cand then some cand
    else
      match cs.dropWhile (fun c => c != ':') with
      | [] => none
      | _ :: rest => pathScanF fs pname fuel rest

/-- The PATH scan at its natural fuel. -/
def pathScan (fs : List String) (pname : String) (cs : List Char) : Option String :=
  pathScanF fs pname (cs.length + 1) cs

/-- The truncation loop of `gnuplot_get_program_path` (gnuplot.cpp:122-127):
zero characters from the end of the buffer back to and including the last
slash, leaving only the directory part of the found candidate. -/
def dirOf (s : String) : String :=
  String.mk (((s.data.reverse.dropWhile fun c => c != '/').drop 1).reverse)

/-- `gnuplot_get_program_path` (gnuplot.cpp:86-129). The C function writes
into a function-static buffer `buf`; `buf` here is the buffer contents
before the call, the first component of the result is the buffer contents
after the call (what a pointer returned by an EARLIER call now sees), and
the second component is the result: the directory on success, `none` when
the program is not found or PATH is unset. The code overwrites the buffer
unconditionally at entry, so nothing of the argument `buf` flows into the
result. -/
def gnuplot_get_program_path (buf : String) (fs : List String) (path : Option String)
    (pname : String) : String × Option String :=
  if access_XOK fs ("./" ++ pname) then (".", some ".")
  else
    match path with
    | none => ("", none)
    | some p =>
      match pathScan fs pname p.data with
      | none => ("", none)
      | some cand => (dirOf cand, some (dirOf cand))

/-- One state-mutating operation of a live session, each constructor naming
the `gnuplot.cpp` function it embeds. `set title` and the axis labels only
send commands and appear as the identity step; `gnuplot_close` ends the
session and is therefore not a step between live states. -/
inductive Step (maxTmp : ℕ) : gnuplot_ctrl → gnuplot_ctrl → Prop
  | setstyle (g : gnuplot_ctrl) (s : String) : Step maxTmp g (gnuplot_setstyle g s)
  | labels (g : gnuplot_ctrl) : Step maxTmp g g
  | resetplot (g : gnuplot_ctrl) : Step maxTmp g (gnuplot_resetplot g).1
  | plot_x (g : gnuplot_ctrl) (d : Option (List ℚ)) (t tmp : Option String) :
      Step maxTmp g (gnuplot_plot_x maxTmp g d t tmp).state
  | plot_xy (g : gnuplot_ctrl) (x y : Option (List ℚ)) (n : ℕ) (t tmp : Option String)
      (w : Bool) : Step maxTmp g (gnuplot_plot_xy maxTmp g x y n t tmp w).state
  | slope (g : gnuplot_ctrl) (a b : ℚ) (t : Option String) :
      Step maxTmp g (gnuplot_plot_slope g a b t).1
  | equation (g : gnuplot_ctrl) (e : String) (t : Option String) :
      Step maxTmp g (gnuplot_plot_equation g e t).1
  | histogram (g : gnuplot_ctrl) (ord : List ℚ) (rd : Option (List ℚ)) (nb : ℕ)
      (ov : Bool) (t tmp : Option String) (w : Bool) :
      Step maxTmp g (gnuplot_plot_histogram maxTmp g ord rd nb ov t tmp w).state

/-- Session states reachable from the freshly constructed session. -/
inductive Reachable (maxTmp : ℕ) : gnuplot_ctrl → Prop
  | init : Reachable maxTmp initState
  | step {g g' : gnuplot_ctrl} : Reachable maxTmp g → Step maxTmp g g' →
      Reachable maxTmp g'

/-! ## Shared helper lemmas -/

/-- Membership in the style enumeration, spelled out as the disjunction the
`strcmp` chain tests. -/
theorem mem_validStyles_iff (s : String) :
    s ∈ validStyles ↔
      (s = "lines" ∨ s = "points" ∨ s = "linespoints" ∨ s = "impulses" ∨ s = "dots" ∨
       s = "steps" ∨ s = "histogram" ∨ s = "errorbars" ∨ s = "boxes" ∨ s = "boxerrorbars") := by
  simp [validStyles]

/-- A fold whose step fixes every element of the list is the identity. -/
theorem foldl_id_of_fixed {α β : Type} (f : β → α → β) (l : List α) (b : β)
    (h : ∀ x ∈ l, ∀ y, f y x = y) : l.foldl f b = b := by
  induction l generalizing b with
  | nil => rfl
  | cons a l ih =>
    rw [List.foldl_cons, h a (by simp)]
    exact ih b fun x hx y => h x (by simp [hx]) y

/-- `gnuplot_setstyle` never touches the staged-file registry. -/
theorem setstyle_to_delete (g : gnuplot_ctrl) (s : String) :
    (gnuplot_setstyle g s).to_delete = g.to_delete := by
  unfold gnuplot_setstyle
  split <;> rfl

/-- Effect of `gnuplot_plot_x` on the registry: either the call refused and
the registry is unchanged, or the capacity check passed and exactly one
name was appended. -/
theorem plot_x_to_delete (maxTmp : ℕ) (g : gnuplot_ctrl) (d : Option (List ℚ))
    (t tmp : Option String) :
    (gnuplot_plot_x maxTmp g d t tmp).state.to_delete = g.to_delete ∨
    ((gnuplot_plot_x maxTmp g d t tmp).state.to_delete.length = g.to_delete.length + 1 ∧
      g.to_delete.length ≠ maxTmp - 1) := by
  cases d with
  | none => exact Or.inl rfl
  | some ds =>
    by_cases h1 : ds.length < 1
    · left; simp [gnuplot_plot_x, h1]
    · by_cases h2 : g.to_delete.length = maxTmp - 1
      · left; simp [gnuplot_plot_x, h1, h2]
      · cases tmp with
        | none => left; simp [gnuplot_plot_x, h1, h2]
        | some name =>
          right
          refine ⟨?_, h2⟩
          simp [gnuplot_plot_x, h1, h2]

/-- Effect of `gnuplot_plot_xy` on the registry: refusal leaves it
unchanged, otherwise exactly one name was appended after the capacity
check passed (also on the short-write path). -/
theorem plot_xy_to_delete (maxTmp : ℕ) (g : gnuplot_ctrl) (x y : Option (List ℚ)) (n : ℕ)
    (t tmp : Option String) (w : Bool) :
    (gnuplot_plot_xy maxTmp g x y n t tmp w).state.to_delete = g.to_delete ∨
    ((gnuplot_plot_xy maxTmp g x y n t tmp w).state.to_delete.length = g.to_delete.length + 1 ∧
      g.to_delete.length ≠ maxTmp - 1) := by
  cases x with
  | none => exact Or.inl rfl
  | some xs =>
    cases y with
    | none => exact Or.inl rfl
    | some ys =>
      by_cases h1 : n < 1
      · left; simp [gnuplot_plot_xy, h1]
      · by_cases h2 : g.to_delete.length = maxTmp - 1
        · left; simp [gnuplot_plot_xy, h1, h2]
        · cases tmp with
          | none => left; simp [gnuplot_plot_xy, h1, h2]
          | some name =>
            right
            refine ⟨?_, h2⟩
            cases w <;> simp [gnuplot_plot_xy, h1, h2]

/-- Every live-session step keeps the registry strictly below the capacity
bound. -/
theorem step_preserves_to_delete_lt {maxTmp : ℕ} (h1 : 1 ≤ maxTmp) {g g' : gnuplot_ctrl}
    (hs : Step maxTmp g g') (hg : g.to_delete.length < maxTmp) :
    g'.to_delete.length < maxTmp := by
  cases hs with
  | setstyle s => rw [setstyle_to_delete]; exact hg
  | labels => exact hg
  | resetplot => simpa [gnuplot_resetplot] using h1
  | plot_x d t tmp =>
    rcases plot_x_to_delete maxTmp g d t tmp with he | ⟨hl, hne⟩
    · rw [he]; exact hg
    · omega
  | plot_xy x y n t tmp w =>
    rcases plot_xy_to_delete maxTmp g x y n t tmp w with he | ⟨hl, hne⟩
    · rw [he]; exact hg
    · omega
  | slope a b t => exact hg
  | equation e t => exact hg
  | histogram ord rd nb ov t tmp w =>
    cases rd with
    | none => exact hg
    | some r =>
      have hsty := setstyle_to_delete g "boxes"
      have hmem := plot_xy_to_delete maxTmp (gnuplot_setstyle g "boxes") (some ord)
        (some ((histBins ord nb ov r).map fun c => (c : ℚ))) nb t tmp w
      rcases hmem with he | ⟨hl, hne⟩
      · show (gnuplot_plot_xy maxTmp (gnuplot_setstyle g "boxes") (some ord)
          (some ((histBins ord nb ov r).map fun c => (c : ℚ))) nb t tmp w).state.to_delete.length < maxTmp
        rw [he, hsty]; exact hg
      · show (gnuplot_plot_xy maxTmp (gnuplot_setstyle g "boxes") (some ord)
          (some ((histBins ord nb ov r).map fun c => (c : ℚ))) nb t tmp w).state.to_delete.length < maxTmp
        rw [hsty] at hl hne
        omega

/-! ## Claim C1 (histogram, clamping policy) -/

/-- C1 counterexample: with edges `[0,1,2,3]`, samples `[0.5,1.5,2.5,-1,5]`
and the clamping policy, the code does NOT produce the claimed counts
`[2,1,1,0]`. -/
theorem C1_counterexample :
    ¬ (histBins [0, 1, 2, 3] 4 true [mkRat 1 2, mkRat 3 2, mkRat 5 2, -1, 5]
        = [2, 1, 1, 0]) := by
  decide

/-- C1 (amended): under the clamping policy on edges `[0,1,2,3]` and samples
`[0.5,1.5,2.5,-1,5]` the counts are `[4,1,1,0]`: the sample loop is bounded
by the bin count, so only the first four samples are examined, in-range
samples increment their containing bin once, and an out-of-range sample
increments its clamp bin once per inner scan iteration, that is
`nbins - 1 = 3` times, as the two `binOne` evaluations show for a low and a
high out-of-range sample. -/
theorem C1_amended_thm :
    histBins [0, 1, 2, 3] 4 true [mkRat 1 2, mkRat 3 2, mkRat 5 2, -1, 5] = [4, 1, 1, 0] ∧
    binOne [0, 1, 2, 3] 4 true (-1) [0, 0, 0, 0] = [3, 0, 0, 0] ∧
    binOne [0, 1, 2, 3] 4 true 5 [0, 0, 0, 0] = [0, 0, 0, 3] := by
  decide

/-! ## Claim C2 (close reclaims resources despite pipe failure) -/

/-- C2 counterexample: closing a session holding one staged file while
`pclose` reports failure neither removes the staged file nor releases the
handle. -/
theorem C2_counterexample :
    ¬ ((gnuplot_close ⟨"points", 1, ["f1"]⟩ false).removed = ["f1"] ∧
       (gnuplot_close ⟨"points", 1, ["f1"]⟩ false).state = none) := by
  decide

/-- C2 (amended): `gnuplot_close` deletes all staged files and releases the
handle exactly when `pclose` succeeds; when `pclose` reports failure it
prints a warning and returns immediately, leaving the staged files, the
registry and the handle intact. -/
theorem C2_amended_thm : ∀ g : gnuplot_ctrl,
    (gnuplot_close g true).removed = g.to_delete ∧
    (gnuplot_close g true).state = none ∧
    (gnuplot_close g true).warned = false ∧
    (gnuplot_close g false).removed = [] ∧
    (gnuplot_close g false).state = some g ∧
    (gnuplot_close g false).warned = true := by
  intro g
  simp [gnuplot_close]

/-! ## Claim C3 (registry capacity invariant) -/

/-- C3: in every reachable session state the staged-file registry holds
fewer than `maxTmp` (`GP_MAX_TMP_FILES`) entries, and a plot call made when
the registry already holds `maxTmp - 1` entries refuses before creating any
file, leaving the whole state unchanged (for both the series-by-index and
the series-by-coordinates builder). -/
theorem C3_thm (maxTmp : ℕ) (h1 : 1 ≤ maxTmp) :
    (∀ g : gnuplot_ctrl, Reachable maxTmp g → g.to_delete.length < maxTmp) ∧
    (∀ (g : gnuplot_ctrl) (d : Option (List ℚ)) (t tmp : Option String),
      g.to_delete.length = maxTmp - 1 →
      gnuplot_plot_x maxTmp g d t tmp = ⟨g, none, none⟩) ∧
    (∀ (g : gnuplot_ctrl) (x y : Option (List ℚ)) (n : ℕ) (t tmp : Option String) (w : Bool),
      g.to_delete.length = maxTmp - 1 →
      gnuplot_plot_xy maxTmp g x y n t tmp w = ⟨g, none, none⟩) := by
  refine ⟨?_, ?_, ?_⟩
  · intro g hg
    induction hg with
    | init => simpa [initState] using h1
    | step hr hstep ih => exact step_preserves_to_delete_lt h1 hstep ih
  · intro g d t tmp hcap
    cases d with
    | none => rfl
    | some ds =>
      by_cases hlen : ds.length < 1
      · simp [gnuplot_plot_x, hlen]
      · simp [gnuplot_plot_x, hlen, hcap]
  · intro g x y n t tmp w hcap
    cases x with
    | none => rfl
    | some xs =>
      cases y with
      | none => rfl
      | some ys =>
        by_cases hlen : n < 1
        · simp [gnuplot_plot_xy, hlen]
        · simp [gnuplot_plot_xy, hlen, hcap]

/-- C3 witness: at capacity bound 1 the fresh session is below the bound,
and a plot call from a registry already holding `1 - 1 = 0` entries is a
refusal that changes nothing. -/
theorem C3_witness :
    gnuplot_plot_x 1 initState (some [1]) none (some "f") = ⟨initState, none, none⟩ ∧
    initState.to_delete.length < 1 :=
  ⟨(C3_thm 1 (by norm_num)).2.1 initState (some [1]) none (some "f") rfl,
   (C3_thm 1 (by norm_num)).1 initState Reachable.init⟩

/-! ## Claim C4 (overlay counter and verb choice) -/

/-- C4: in every reachable state the overlay counter is zero exactly when
the next command uses the `plot` verb; a completed series-by-index call
(one that actually sent a command) increments the counter by one; reset
zeroes the counter and empties the registry; and directly after a reset
the verb choice is `plot`. -/
theorem C4_thm (maxTmp : ℕ) :
    (∀ g : gnuplot_ctrl, Reachable maxTmp g → (g.nplots = 0 ↔ plotVerb g = "plot")) ∧
    (∀ (g : gnuplot_ctrl) (d : Option (List ℚ)) (t tmp : Option String) (r : String),
      (gnuplot_plot_x maxTmp g d t tmp).sent = some r →
      (gnuplot_plot_x maxTmp g d t tmp).state.nplots = g.nplots + 1) ∧
    (∀ g : gnuplot_ctrl,
      (gnuplot_resetplot g).1.nplots = 0 ∧ (gnuplot_resetplot g).1.to_delete = []) ∧
    (∀ g : gnuplot_ctrl, plotVerb (gnuplot_resetplot g).1 = "plot") := by
  refine ⟨?_, ?_, ?_, ?_⟩
  · intro g _
    unfold plotVerb
    rcases Nat.eq_zero_or_pos g.nplots with h0 | hp
    · rw [h0]
      simp
    · rw [if_pos hp]
      constructor
      · intro h; omega
      · intro h; exact absurd h (by decide)
  · intro g d t tmp r hs
    cases d with
    | none => simp [gnuplot_plot_x] at hs
    | some ds =>
      by_cases h1 : ds.length < 1
      · simp [gnuplot_plot_x, h1] at hs
      · by_cases h2 : g.to_delete.length = maxTmp - 1
        · simp [gnuplot_plot_x, h1, h2] at hs
        · cases tmp with
          | none => simp [gnuplot_plot_x, h1, h2] at hs
          | some name => simp [gnuplot_plot_x, h1, h2]
  · intro g
    exact ⟨rfl, rfl⟩
  · intro g
    rfl

/-- C4 witness: the fresh session is reachable and satisfies the verb
equivalence, and a concrete completed plot call increments the counter. -/
theorem C4_witness :
    (initState.nplots = 0 ↔ plotVerb initState = "plot") ∧
    (gnuplot_plot_x 64 initState (some [1]) none (some "f")).state.nplots
      = initState.nplots + 1 :=
  ⟨(C4_thm 64).1 initState Reachable.init,
   (C4_thm 64).2.1 initState (some [1]) none (some "f") "plot \"f\" with points" (by decide)⟩

/-! ## Claim C5 (style validation) -/

/-- C5: `gnuplot_setstyle` stores the requested style exactly when it is a
member of the fixed enumeration and falls back to exactly `"points"`
otherwise; in every case the resulting style is a member of the
enumeration (and the function is total, so the call never fails). -/
theorem C5_thm : ∀ (g : gnuplot_ctrl) (s : String),
    ((gnuplot_setstyle g s).pstyle = if s ∈ validStyles then s else "points") ∧
    (gnuplot_setstyle g s).pstyle ∈ validStyles := by
  intro g s
  by_cases hm : s ∈ validStyles
  · have hd := (mem_validStyles_iff s).1 hm
    have hst : gnuplot_setstyle g s = { g with pstyle := s } := by
      unfold gnuplot_setstyle
      rw [if_neg]
      tauto
    rw [hst, if_pos hm]
    exact ⟨rfl, hm⟩
  · have hd : ¬ (s = "lines" ∨ s = "points" ∨ s = "linespoints" ∨ s = "impulses" ∨
        s = "dots" ∨ s = "steps" ∨ s = "histogram" ∨ s = "errorbars" ∨ s = "boxes" ∨
        s = "boxerrorbars") := fun h => hm ((mem_validStyles_iff s).2 h)
    have hst : gnuplot_setstyle g s = { g with pstyle := "points" } := by
      unfold gnuplot_setstyle
      rw [if_pos]
      push_neg at hd
      exact hd
    rw [hst, if_neg hm]
    exact ⟨rfl, show "points" ∈ validStyles by decide⟩

/-! ## Claim C6 (slope default title) -/

/-- C6: evaluating the embedded code at the failing input (null title,
slope 1, intercept 0, fresh session) shows that the slope command embeds
the formatted null pointer `"(null)"`, not the computed default
`"no title"` that the equation builder embeds: the local `stitle` of
`gnuplot_plot_slope` is computed and then never used. -/
theorem C6_thm :
    (gnuplot_plot_slope initState 1 0 none).2
      = "plot 1 * x + 0 title \"(null)\" with points" ∧
    (gnuplot_plot_equation initState "x" none).2
      = "plot x title \"no title\" with points" ∧
    ¬ ((gnuplot_plot_slope initState 1 0 none).2
      = "plot 1 * x + 0 title \"no title\" with points") := by
  decide

/-! ## Claim C7 (histogram, strict policy) -/

/-- C7: under the strict policy on edges `[0,1,2,3]` and samples
`[0.5,1.5,2.5,-1,5]` the counts are `[1,1,1,0]`, and a sample outside the
half-open range from the first to the last edge never changes any bin. -/
theorem C7_thm :
    histBins [0, 1, 2, 3] 4 false [mkRat 1 2, mkRat 3 2, mkRat 5 2, -1, 5] = [1, 1, 1, 0] ∧
    ∀ (v : ℚ) (bin : List ℕ), (v < 0 ∨ 3 ≤ v) →
      binOne [0, 1, 2, 3] 4 false v bin = bin := by
  constructor
  · decide
  · intro v bin hv
    unfold binOne
    refine foldl_id_of_fixed _ _ _ ?_
    intro i hi b
    have hi3 : i < 3 := by simpa [List.mem_range] using hi
    have e0 : ([0, 1, 2, 3] : List ℚ).getD 0 0 = 0 := rfl
    have e1 : ([0, 1, 2, 3] : List ℚ).getD 1 0 = 1 := rfl
    have e2 : ([0, 1, 2, 3] : List ℚ).getD 2 0 = 2 := rfl
    have e3 : ([0, 1, 2, 3] : List ℚ).getD 3 0 = 3 := rfl
    interval_cases i
    · simp only [Nat.zero_add, e0, e1]
      rw [if_neg (by simp), if_neg]
      rintro ⟨hc1, hc2⟩
      rcases hv with hv | hv <;> linarith
    · simp only [e1, e2]
      rw [if_neg (by simp), if_neg]
      rintro ⟨hc1, hc2⟩
      rcases hv with hv | hv <;> linarith
    · simp only [e2, e3]
      rw [if_neg (by simp), if_neg]
      rintro ⟨hc1, hc2⟩
      rcases hv with hv | hv <;> linarith

/-- C7 witness: the concrete counts, and the general no-increment fact
applied to the concrete out-of-range sample 5 on zeroed bins. -/
theorem C7_witness :
    histBins [0, 1, 2, 3] 4 false [mkRat 1 2, mkRat 3 2, mkRat 5 2, -1, 5] = [1, 1, 1, 0] ∧
    binOne [0, 1, 2, 3] 4 false 5 [0, 0, 0, 0] = [0, 0, 0, 0] :=
  ⟨C7_thm.1, C7_thm.2 5 [0, 0, 0, 0] (Or.inr (by norm_num))⟩

/-! ## Claim C8 (series-by-index stages one file, one line per sample) -/

/-- C8: with non-null data of length at least 1, the registry below
capacity and a successful `mkstemp`, `gnuplot_plot_x` stages exactly one
file holding one formatted line per sample, registers exactly that file,
and increments the overlay counter by exactly one. -/
theorem C8_thm (maxTmp : ℕ) (g : gnuplot_ctrl) (ds : List ℚ) (title : Option String)
    (name : String) (h1 : 1 ≤ ds.length) (h2 : g.to_delete.length < maxTmp - 1) :
    (gnuplot_plot_x maxTmp g (some ds) title (some name)).staged
      = some (name, ds.map fmtG) ∧
    (ds.map fmtG).length = ds.length ∧
    (gnuplot_plot_x maxTmp g (some ds) title (some name)).state.to_delete
      = g.to_delete ++ [name] ∧
    (gnuplot_plot_x maxTmp g (some ds) title (some name)).state.nplots = g.nplots + 1 := by
  have hn : ¬ ds.length < 1 := by omega
  have hc : ¬ g.to_delete.length = maxTmp - 1 := by omega
  simp [gnuplot_plot_x, hn, hc]

/-- C8 witness: a one-sample plot from a fresh session with bound 64. -/
theorem C8_witness :
    (gnuplot_plot_x 64 initState (some [1]) none (some "f")).staged
      = some ("f", [(1 : ℚ)].map fmtG) ∧
    ([(1 : ℚ)].map fmtG).length = [(1 : ℚ)].length ∧
    (gnuplot_plot_x 64 initState (some [1]) none (some "f")).state.to_delete
      = initState.to_delete ++ ["f"] ∧
    (gnuplot_plot_x 64 initState (some [1]) none (some "f")).state.nplots
      = initState.nplots + 1 :=
  C8_thm 64 initState [1] none "f" (by decide) (by decide)

/-! ## Claim C9 (histogram edge cases) -/

/-- C9 counterexample: a histogram call on a fresh session with a non-null
sample array and a zero-length bin set does change the session state — it
sets the style to `"boxes"` before the xy builder refuses. -/
theorem C9_counterexample :
    ¬ ((gnuplot_plot_histogram 64 initState [] (some [1]) 0 true none (some "t") true).state
        = initState) := by
  decide

/-- C9 (amended): a histogram call with a null sample pointer is a complete
no-op, and a call with a zero-length bin set sends no command, stages no
file and leaves the counter and registry unchanged, but does set the
session style to `"boxes"` before refusing; neither case crashes (both are
total evaluations). -/
theorem C9_amended_thm : ∀ (maxTmp : ℕ) (g : gnuplot_ctrl) (ord : List ℚ) (nbins : ℕ)
    (ov : Bool) (t tmp : Option String) (w : Bool),
    gnuplot_plot_histogram maxTmp g ord none nbins ov t tmp w = ⟨g, none, none⟩ ∧
    ∀ rd : List ℚ, gnuplot_plot_histogram maxTmp g ord (some rd) 0 ov t tmp w
      = ⟨{ g with pstyle := "boxes" }, none, none⟩ := by
  intro maxTmp g ord nbins ov t tmp w
  exact ⟨rfl, fun rd => rfl⟩

/-! ## Claim C10 (locator purity) -/

/-- C10 counterexample: with the same environment and filesystem, a later
locator call for a different program name overwrites the static buffer that
the earlier call returned, so the result observable from the earlier call
is altered: after locating `gnuplot` the buffer holds `/a`, after the
subsequent call locating `ls` it holds `/b`. -/
theorem C10_counterexample :
    ¬ ((gnuplot_get_program_path
          (gnuplot_get_program_path "" ["/a/gnuplot", "/b/ls"] (some "/a:/b") "gnuplot").1
          ["/a/gnuplot", "/b/ls"] (some "/a:/b") "ls").1
        = (gnuplot_get_program_path "" ["/a/gnuplot", "/b/ls"] (some "/a:/b") "gnuplot").1) := by
  decide

/-- C10 (amended): the locator is deterministic in the program name, the
environment and the filesystem — its result (and the buffer contents it
leaves behind) does not depend on the prior contents of the static buffer,
because the code overwrites the buffer at entry; so successive calls with
the same inputs return the same result. What fails in the original claim
is only the absence of mutation, exhibited by the counterexample. -/
theorem C10_amended_thm : ∀ (b1 b2 : String) (fs : List String) (path : Option String)
    (pname : String),
    gnuplot_get_program_path b1 fs path pname = gnuplot_get_program_path b2 fs path pname := by
  intro b1 b2 fs path pname
  rfl
